import Mathlib

/-!
Verification of the blog domain core of this repository: the `PostAggregate`
state machine (src/src/domain/blog/aggregates.py, entities.py, value_objects.py,
src/src/domain/shared/base.py) and the asynchronous dispatch pipeline
(src/config/celery_app.py).

Modelling conventions:
* Python `uuid.UUID` identifiers are modelled as `Nat`.
* `datetime` timestamps are modelled as `Nat`; the implicit `datetime.now(...)`
  calls become explicit `now` parameters.
* Python strings are modelled as Lean `String`; `str.lower`, `str.strip` and
  `len` are modelled by `pyLower`, `pyStrip`, `pyLen` over the character list.
* Raising a domain exception is modelled by `Except.error`; mutation is
  modelled by state passing (each operation returns the updated aggregate).
-/

/-- Model of Python `str.lower()` (ASCII case folding, as exercised here). -/
def pyLower (s : String) : String := String.mk (s.data.map Char.toLower)

/-- Model of Python `str.strip()`: drop leading and trailing whitespace. -/
def pyStrip (s : String) : String :=
  String.mk (((s.data.dropWhile Char.isWhitespace).reverse.dropWhile Char.isWhitespace).reverse)

/-- Model of Python `len` on a string (number of code points). -/
def pyLen (s : String) : Nat := s.data.length

/-- `PostStatus` enum from src/src/domain/blog/entities.py. -/
inductive PostStatus where
  | draft
  | published
  | archived
deriving DecidableEq

/-- `Content` value object (src/src/domain/blog/value_objects.py); its
`__post_init__` validation (non-empty) is not needed by any claim, the
value is carried as-is. -/
structure Content where
  value : String
deriving DecidableEq

def Content.MIN_LENGTH_TO_PUBLISH : Nat := 100

/-- `Content.is_publishable`: `len(self.value.strip()) >= MIN_LENGTH_TO_PUBLISH`. -/
def Content.is_publishable (c : Content) : Bool :=
  decide (Content.MIN_LENGTH_TO_PUBLISH ≤ pyLen (pyStrip c.value))

/-- Accent folding performed by `Title.to_slug` via its `re.sub` chains. -/
def deaccent (c : Char) : Char :=
  if c = 'á' ∨ c = 'à' ∨ c = 'ä' ∨ c = 'â' then 'a'
  else if c = 'é' ∨ c = 'è' ∨ c = 'ë' ∨ c = 'ê' then 'e'
  else if c = 'í' ∨ c = 'ì' ∨ c = 'ï' ∨ c = 'î' then 'i'
  else if c = 'ó' ∨ c = 'ò' ∨ c = 'ö' ∨ c = 'ô' then 'o'
  else if c = 'ú' ∨ c = 'ù' ∨ c = 'ü' ∨ c = 'û' then 'u'
  else if c = 'ñ' then 'n'
  else c

/-- Characters kept by the `re.sub(r"[^a-z0-9\s-]", "", raw)` step. -/
def slugKeep (c : Char) : Bool :=
  ('a' ≤ c ∧ c ≤ 'z') ∨ c.isDigit ∨ c.isWhitespace ∨ c = '-'

/-- Maximal runs of non-separator characters, in order.  Together with
`List.intercalate` below this realises `re.sub(r"[\s]+", "-", raw.strip())`:
stripping the ends and collapsing each internal whitespace run to one hyphen. -/
def wordsByAux (p : Char → Bool) : List Char → List Char → List (List Char)
  | [], acc => if acc = [] then [] else [acc.reverse]
  | c :: cs, acc =>
    if p c then
      (if acc = [] then wordsByAux p cs [] else acc.reverse :: wordsByAux p cs [])
    else wordsByAux p cs (c :: acc)

/-- `Title.to_slug` from src/src/domain/blog/value_objects.py: lowercase,
fold accents, drop characters outside `[a-z0-9\s-]`, then join the
whitespace-separated words with hyphens. -/
def toSlug (title : String) : String :=
  let raw := (title.data.map Char.toLower).map deaccent
  let raw := raw.filter slugKeep
  String.mk (List.intercalate ['-'] (wordsByAux Char.isWhitespace raw []))

/-- Domain error kinds (src/src/domain/blog/exceptions.py and
src/src/domain/shared/base.py).  `PostNotFound` covers the repository's
`PostNotFoundError` / shared `NotFoundError` kinds. -/
inductive BlogError where
  | PostAlreadyPublished
  | PostArchived (operation : String)
  | InvalidPostContent (current_length min_length : Nat)
  | UnauthorizedPostAction (action : String)
  | CommentNotAllowed (reason : String)
  | Validation (message : String)
  | PostNotFound (identifier : String)
deriving DecidableEq

/-- Whether a result of `remove_comment` failed with a not-found error kind. -/
def BlogError.is_not_found : BlogError → Bool
  | .PostNotFound _ => true
  | _ => false

/-- Whether an operation failed with the archived-operation-rejected kind. -/
def errIsPostArchived {α : Type} : Except BlogError α → Bool
  | .error (.PostArchived _) => true
  | _ => false

/-- Whether an operation failed with a not-found kind. -/
def errIsNotFound {α : Type} : Except BlogError α → Bool
  | .error e => e.is_not_found
  | _ => false

/-- `Comment` entity (src/src/domain/blog/entities.py). -/
structure Comment where
  id : Nat
  body : String
  author_id : Nat
  created_at : Nat
  is_deleted : Bool
deriving DecidableEq

def Comment.MAX_LENGTH : Nat := 1000

/-- `Comment.__init__` with `_validate_body`: rejects empty/whitespace-only
bodies and bodies longer than `MAX_LENGTH`; the stored body is stripped.
The implicit `uuid4()` and `now()` are the explicit `comment_id`, `now`. -/
def Comment.make (body : String) (author_id comment_id now : Nat) :
    Except BlogError Comment :=
  if pyStrip body = "" then
    .error (.Validation "El cuerpo del comentario no puede estar vacío.")
  else if Comment.MAX_LENGTH < pyLen body then
    .error (.Validation ("El comentario no puede exceder " ++ toString Comment.MAX_LENGTH ++
      " caracteres (actual: " ++ toString (pyLen body) ++ ")."))
  else
    .ok { id := comment_id, body := pyStrip body, author_id := author_id,
          created_at := now, is_deleted := false }

/-- `Comment.soft_delete`: only the author may delete; the body is replaced
by the tombstone marker. -/
def Comment.soft_delete (c : Comment) (requesting_user_id : Nat) :
    Except BlogError Comment :=
  if requesting_user_id ≠ c.author_id then
    .error (.UnauthorizedPostAction "eliminar comentario")
  else
    .ok { c with is_deleted := true, body := "[comentario eliminado]" }

/-- `Post` entity (src/src/domain/blog/entities.py).  `Title` is carried by
its cleaned `value` string; the slug is the stored derived field. -/
structure Post where
  id : Nat
  title : String
  slug : String
  content : Content
  author_id : Nat
  category_id : Option Nat
  status : PostStatus
  tags : List String
  created_at : Nat
  updated_at : Nat
  published_at : Option Nat
deriving DecidableEq

def Post.is_published (p : Post) : Bool := decide (p.status = .published)

def Post.is_draft (p : Post) : Bool := decide (p.status = .draft)

def Post.is_archived (p : Post) : Bool := decide (p.status = .archived)

/-- `Post._set_status`: also refreshes `updated_at`. -/
def Post._set_status (p : Post) (status : PostStatus) (now : Nat) : Post :=
  { p with status := status, updated_at := now }

def Post._set_published_at (p : Post) (dt : Nat) : Post :=
  { p with published_at := some dt }

/-- `Post._update_content`: replaces title, recomputes the slug, replaces
content, refreshes `updated_at`. -/
def Post._update_content (p : Post) (title : String) (content : Content) (now : Nat) : Post :=
  { p with title := title, slug := toSlug title, content := content, updated_at := now }

/-- `Post._add_tag`: `normalized = tag.lower().strip()`; appended only when
non-empty and not already present.  `updated_at` is not touched. -/
def Post._add_tag (p : Post) (tag : String) : Post :=
  let normalized := pyStrip (pyLower tag)
  if normalized ≠ "" ∧ normalized ∉ p.tags then
    { p with tags := p.tags ++ [normalized] }
  else p

def Post._set_category (p : Post) (category_id : Option Nat) : Post :=
  { p with category_id := category_id }

/-- A Python value as it appears in the reconstruction step of the dispatch
worker: identifier fields may hold a parsed UUID, a raw fallback string, or
`None`.  Python is dynamically typed, so reconstructed events can carry any
of these in an identifier slot. -/
inductive PyVal where
  | pyNone
  | str (s : String)
  | uuid (u : Nat)
deriving DecidableEq

/-- Domain event variants (src/src/domain/blog/events.py), carried by their
type-specific payload fields.  The base-class `event_id` / `occurred_at`
metadata is generated fresh per occurrence and is handled at the envelope
layer, not here. -/
inductive DomainEvent where
  | PostCreated (post_id : PyVal) (author_id : PyVal) (title : PyVal)
  | PostPublished (post_id : PyVal) (slug : PyVal)
  | PostArchived (post_id : PyVal)
  | CommentAdded (post_id : PyVal) (comment_id : PyVal) (author_id : PyVal)
  | PostUpdated (post_id : PyVal) (new_title : PyVal)
deriving DecidableEq

/-- `PostAggregate` (src/src/domain/blog/aggregates.py) together with the
`AggregateRoot` event buffer (src/src/domain/shared/base.py). -/
structure PostAggregate where
  id : Nat
  post : Post
  _comments : List Comment
  _domain_events : List DomainEvent
deriving DecidableEq

/-- `AggregateRoot._record_event`: append to the pending buffer. -/
def PostAggregate._record_event (a : PostAggregate) (e : DomainEvent) : PostAggregate :=
  { a with _domain_events := a._domain_events ++ [e] }

/-- `PostAggregate.__init__`: builds the inner `Post` (status `DRAFT`, no
tags, derived slug) and records `PostCreated`. -/
def PostAggregate.create (title : String) (content : Content) (author_id : Nat)
    (category_id : Option Nat) (post_id now : Nat) : PostAggregate :=
  let a : PostAggregate :=
    { id := post_id,
      post :=
        { id := post_id, title := title, slug := toSlug title, content := content,
          author_id := author_id, category_id := category_id, status := .draft,
          tags := [], created_at := now, updated_at := now, published_at := none },
      _comments := [], _domain_events := [] }
  a._record_event (.PostCreated (.uuid post_id) (.uuid author_id) (.str title))

/-- The `comments` property: defensive copy of the non-deleted comments. -/
def PostAggregate.comments (a : PostAggregate) : List Comment :=
  a._comments.filter (fun c => !c.is_deleted)

/-- The `all_comments` property: every comment, including soft-deleted ones. -/
def PostAggregate.all_comments (a : PostAggregate) : List Comment :=
  a._comments

/-- `PostAggregate.publish`. -/
def PostAggregate.publish (a : PostAggregate) (now : Nat) :
    Except BlogError PostAggregate :=
  if a.post.is_published then .error .PostAlreadyPublished
  else if a.post.is_archived then .error (.PostArchived "publicar")
  else if !a.post.content.is_publishable then
    .error (.InvalidPostContent (pyLen a.post.content.value) Content.MIN_LENGTH_TO_PUBLISH)
  else
    let p := (a.post._set_status .published now)._set_published_at now
    .ok (({ a with post := p } : PostAggregate)._record_event
      (.PostPublished (.uuid a.id) (.str a.post.slug)))

/-- `PostAggregate.archive`. -/
def PostAggregate.archive (a : PostAggregate) (requesting_author_id now : Nat) :
    Except BlogError PostAggregate :=
  if requesting_author_id ≠ a.post.author_id then
    .error (.UnauthorizedPostAction "archivar")
  else if a.post.is_archived then .error (.PostArchived "archivar nuevamente")
  else
    .ok (({ a with post := a.post._set_status .archived now } : PostAggregate)._record_event
      (.PostArchived (.uuid a.id)))

/-- `PostAggregate.update`. -/
def PostAggregate.update (a : PostAggregate) (new_title : String) (new_content : Content)
    (requesting_author_id now : Nat) : Except BlogError PostAggregate :=
  if requesting_author_id ≠ a.post.author_id then
    .error (.UnauthorizedPostAction "editar")
  else if a.post.is_archived then .error (.PostArchived "editar")
  else
    .ok (({ a with post := a.post._update_content new_title new_content now } : PostAggregate)._record_event
      (.PostUpdated (.uuid a.id) (.str new_title)))

/-- `PostAggregate.add_comment`: returns the updated aggregate and the
created comment. -/
def PostAggregate.add_comment (a : PostAggregate) (body : String)
    (commenter_id comment_id now : Nat) :
    Except BlogError (PostAggregate × Comment) :=
  if a.post.is_archived then .error (.CommentNotAllowed "el post está archivado")
  else
    match Comment.make body commenter_id comment_id now with
    | .error e => .error e
    | .ok c =>
      .ok ((({ a with _comments := a._comments ++ [c] } : PostAggregate)._record_event
              (.CommentAdded (.uuid a.id) (.uuid c.id) (.uuid commenter_id))), c)

/-- Replace the first element satisfying `p` by its image under `f`
(models the in-place mutation of the comment found by `next(...)`). -/
def replaceFirst {α : Type} (p : α → Bool) (f : α → α) : List α → List α
  | [] => []
  | c :: cs => if p c then f c :: cs else c :: replaceFirst p f cs

/-- `PostAggregate.remove_comment`: raises `ValidationError` when no comment
matches, otherwise soft-deletes the first matching comment. -/
def PostAggregate.remove_comment (a : PostAggregate) (comment_id requesting_user_id : Nat) :
    Except BlogError PostAggregate :=
  match a._comments.find? (fun c => c.id == comment_id) with
  | none =>
    .error (.Validation ("Comentario " ++ toString comment_id ++ " no encontrado en este post."))
  | some c =>
    match c.soft_delete requesting_user_id with
    | .error e => .error e
    | .ok c2 =>
      .ok { a with _comments := replaceFirst (fun d => d.id == comment_id) (fun _ => c2) a._comments }

/-- `PostAggregate.add_tags`: folds `Post._add_tag` over the given tags. -/
def PostAggregate.add_tags (a : PostAggregate) (tags : List String) : PostAggregate :=
  { a with post := tags.foldl Post._add_tag a.post }

/-- `PostAggregate.set_category`. -/
def PostAggregate.set_category (a : PostAggregate) (category_id : Option Nat) : PostAggregate :=
  { a with post := a.post._set_category category_id }

/-- `AggregateRoot.pull_events`: returns the buffered events and the
aggregate with an emptied buffer. -/
def PostAggregate.pull_events (a : PostAggregate) : List DomainEvent × PostAggregate :=
  (a._domain_events, { a with _domain_events := [] })

/-- `PostAggregate.reconstitute`: rebuilds from persisted state; the slug is
recomputed from the title, `updated_at` is set to `created_at`, and the
pending-events buffer starts empty. -/
def PostAggregate.reconstitute (post_id : Nat) (title : String) (content : Content)
    (author_id : Nat) (status : PostStatus) (created_at : Nat) (published_at : Option Nat)
    (tags : List String) (category_id : Option Nat) (comments : List Comment) :
    PostAggregate :=
  { id := post_id,
    post :=
      { id := post_id, title := title, slug := toSlug title, content := content,
        author_id := author_id, category_id := category_id, status := status,
        tags := tags, created_at := created_at, updated_at := created_at,
        published_at := published_at },
    _comments := comments, _domain_events := [] }

/-! ## Envelope serialization and the dispatch worker (src/config/celery_app.py) -/

/-- Modelled from the spec: UUID canonical string form.  The repository's
envelope serializer (`CeleryEventBus`, src/infrastructure/messaging, not
present under src/) encodes identifiers "as canonical string form".  The
claims depend only on the encoding being injective with `parseUUID` as its
exact partial inverse — not on the concrete UUID grammar — so the canonical
form is modelled as a tagged unary numeral over the letter `u`. -/
def uuidToString (u : Nat) : String := String.mk (List.replicate (u + 1) 'u')

/-- Partial inverse of `uuidToString`: models `uuid.UUID(v)`, which raises on
any string that is not a canonical identifier. -/
def parseUUID (s : String) : Option Nat :=
  if s.data ≠ [] ∧ ∀ c ∈ s.data, c = 'u' then some (s.data.length - 1) else none

/-- The wire form of a domain event (spec §6): `event_type`, envelope
metadata, and a flat mapping of field names to string-encoded values. -/
structure Envelope where
  event_type : String
  event_id : String
  occurred_at : String
  data : List (String × String)
deriving DecidableEq

/-- String encoding of a Python value for the wire. -/
def pyValToWire : PyVal → String
  | .pyNone => ""
  | .str s => s
  | .uuid u => uuidToString u

def eventTypeName : DomainEvent → String
  | .PostCreated .. => "PostCreated"
  | .PostPublished .. => "PostPublished"
  | .PostArchived .. => "PostArchived"
  | .CommentAdded .. => "CommentAdded"
  | .PostUpdated .. => "PostUpdated"

/-- The type-specific payload fields of an event, in declaration order. -/
def payloadFields : DomainEvent → List (String × String)
  | .PostCreated pid aid t =>
    [("post_id", pyValToWire pid), ("author_id", pyValToWire aid), ("title", pyValToWire t)]
  | .PostPublished pid s =>
    [("post_id", pyValToWire pid), ("slug", pyValToWire s)]
  | .PostArchived pid => [("post_id", pyValToWire pid)]
  | .CommentAdded pid cid aid =>
    [("post_id", pyValToWire pid), ("comment_id", pyValToWire cid), ("author_id", pyValToWire aid)]
  | .PostUpdated pid t =>
    [("post_id", pyValToWire pid), ("new_title", pyValToWire t)]

/-- Modelled from the spec: the envelope encoder (`CeleryEventBus`
serialization, src/infrastructure/messaging, not present under src/).
Per spec §3/§6 the envelope is `{event_type, event_id, occurred_at, data}`
with identifiers in canonical string form; `event_id` and `occurred_at` also
appear inside `data` ("they are stripped before reconstruction"). -/
def encode (event_id occurred_at : Nat) (e : DomainEvent) : Envelope :=
  { event_type := eventTypeName e,
    event_id := uuidToString event_id,
    occurred_at := toString occurred_at,
    data := ("event_id", uuidToString event_id) :: ("occurred_at", toString occurred_at) ::
      payloadFields e }

/-- The per-field cleaning step of `_reconstruct_event`: identifier-bearing
fields are parsed as UUIDs (`None` for the empty string, the raw string on
parse failure); every other field is kept as a string. -/
def cleanField (k v : String) : PyVal :=
  if k = "post_id" ∨ k = "comment_id" ∨ k = "author_id" ∨ k = "event_id" then
    if v = "" then .pyNone
    else
      match parseUUID v with
      | some u => .uuid u
      | none => .str v
  else .str v

/-- The cleaned payload of `_reconstruct_event`: each field cleaned, then
`event_id` and `occurred_at` popped (envelope metadata, not constructor
arguments). -/
def cleanData (data : List (String × String)) : List (String × PyVal) :=
  (data.map (fun kv => (kv.1, cleanField kv.1 kv.2))).filter
    (fun kv => decide (kv.1 ≠ "event_id" ∧ kv.1 ≠ "occurred_at"))

/-- Keyword-argument lookup with the dataclass field default. -/
def getField : List (String × PyVal) → String → PyVal → PyVal
  | [], _, dflt => dflt
  | kv :: rest, k, dflt => if kv.1 = k then kv.2 else getField rest k dflt

/-- `_reconstruct_event` (src/config/celery_app.py lines 190-239): the
`event_classes` map covers `PostCreated`, `PostPublished`, `PostArchived`
and `CommentAdded` only — `PostUpdated` is absent, so it (like every unknown
`event_type`) yields `none`.  A cleaned field whose key is not a constructor
parameter makes `event_cls(**clean_data)` raise `TypeError`, which the
enclosing `except` turns into `none`; missing fields take the dataclass
defaults (`None` for identifiers, `""` for strings). -/
def reconstruct_event (event_type : String) (env : Envelope) : Option DomainEvent :=
  let d := cleanData env.data
  if event_type = "PostCreated" then
    if ∀ kv ∈ d, kv.1 = "post_id" ∨ kv.1 = "author_id" ∨ kv.1 = "title" then
      some (.PostCreated (getField d "post_id" .pyNone) (getField d "author_id" .pyNone)
        (getField d "title" (.str "")))
    else none
  else if event_type = "PostPublished" then
    if ∀ kv ∈ d, kv.1 = "post_id" ∨ kv.1 = "slug" then
      some (.PostPublished (getField d "post_id" .pyNone) (getField d "slug" (.str "")))
    else none
  else if event_type = "PostArchived" then
    if ∀ kv ∈ d, kv.1 = "post_id" then
      some (.PostArchived (getField d "post_id" .pyNone))
    else none
  else if event_type = "CommentAdded" then
    if ∀ kv ∈ d, kv.1 = "post_id" ∨ kv.1 = "comment_id" ∨ kv.1 = "author_id" then
      some (.CommentAdded (getField d "post_id" .pyNone) (getField d "comment_id" .pyNone)
        (getField d "author_id" .pyNone))
    else none
  else none

/-- `EVENT_HANDLER_MAP` (src/config/celery_app.py lines 42-63): event type
name to (module path, handler class name). -/
def EVENT_HANDLER_MAP : List (String × String × String) :=
  [("PostCreated", "src.application.blog.event_handlers.post_event_handlers", "OnPostCreated"),
   ("PostPublished", "src.application.blog.event_handlers.post_event_handlers", "OnPostPublished"),
   ("PostArchived", "src.application.blog.event_handlers.post_event_handlers", "OnPostArchived"),
   ("CommentAdded", "src.application.blog.event_handlers.post_event_handlers", "OnCommentAdded"),
   ("PostUpdated", "src.application.blog.event_handlers.post_event_handlers", "OnPostCreated")]

/-- The task's return value: `{status: ok, ...}` or `{status: skipped, ...}`.
A raised exception is the `Except.error` side of `AttemptTrace.result`. -/
inductive TaskResult where
  | ok (event_type handler : String)
  | skipped (event_type : String)
deriving DecidableEq

/-- The behaviour of the reaction handler the registry resolves: whether the
instance has a `handle` attribute, and what `handler.handle(event)` does on
each attempt number (`Except.error` models a raised exception). -/
structure HandlerBehavior where
  hasHandle : Bool
  run : DomainEvent → Nat → Except String Unit

instance {ε α : Type} [DecidableEq ε] [DecidableEq α] : DecidableEq (Except ε α) := fun a b =>
  match a, b with
  | .ok x, .ok y =>
    if h : x = y then .isTrue (by rw [h]) else .isFalse (by simp [h])
  | .ok _, .error _ => .isFalse (by simp)
  | .error _, .ok _ => .isFalse (by simp)
  | .error e, .error f =>
    if h : e = f then .isTrue (by rw [h]) else .isFalse (by simp [h])

/-- Observable outcome of one execution of `dispatch_domain_event`:
whether the handler object was built, whether `handler.handle` was invoked,
whether the degraded-processing warning was logged, and the task result. -/
structure AttemptTrace where
  built : Bool
  invoked : Bool
  degraded : Bool
  result : Except String TaskResult
deriving DecidableEq

/-- One execution of `dispatch_domain_event` (src/config/celery_app.py lines
76-140): unknown event type reports `skipped`; otherwise the handler is
built, the event reconstruction is attempted, and `handler.handle(event)` is
invoked only when the event was reconstructed and the handler has `handle`
 — otherwise a degraded-processing warning is logged and the task still
reports ok.  A handler exception propagates as `self.retry(exc)`. -/
def dispatch_attempt (b : HandlerBehavior) (payload : Envelope) (attempt : Nat) : AttemptTrace :=
  match EVENT_HANDLER_MAP.lookup payload.event_type with
  | none => ⟨false, false, false, .ok (.skipped payload.event_type)⟩
  | some (_, class_name) =>
    match reconstruct_event payload.event_type payload with
    | some ev =>
      if b.hasHandle then
        match b.run ev attempt with
        | .ok _ => ⟨true, true, false, .ok (.ok payload.event_type class_name)⟩
        | .error e => ⟨true, true, false, .error e⟩
      else ⟨true, false, true, .ok (.ok payload.event_type class_name)⟩
    | none => ⟨true, false, true, .ok (.ok payload.event_type class_name)⟩

/-- Task parameter `max_retries=3`, read per spec §4.5 as "up to 3 attempts
total". -/
def MAX_ATTEMPTS : Nat := 3

/-- Task parameter `default_retry_delay=30`: fixed delay between attempts. -/
def DEFAULT_RETRY_DELAY : Nat := 30

/-- Aggregate observation of a full dispatch including retries: how many
times `handler.handle` ran, the delays inserted between attempts, and the
terminal outcome (an `Except.error` is the dead-letter surface). -/
structure DispatchRun where
  invocations : Nat
  delays : List Nat
  outcome : Except String TaskResult
deriving DecidableEq

/-- Modelled from the spec: the retry driver is Celery framework code, not
part of this repository.  Per spec §4.5, a failed attempt is re-run after a
fixed `DEFAULT_RETRY_DELAY` until the attempt budget is exhausted, after
which the failure is terminal and surfaced. -/
def runWithRetry (b : HandlerBehavior) (payload : Envelope) :
    Nat → Nat → DispatchRun
  | _, 0 => ⟨0, [], .error "retry budget exhausted"⟩
  | attempt, remaining + 1 =>
    let t := dispatch_attempt b payload attempt
    let inv := if t.invoked then 1 else 0
    match t.result with
    | .ok r => ⟨inv, [], .ok r⟩
    | .error e =>
      if remaining = 0 then ⟨inv, [], .error e⟩
      else
        let rest := runWithRetry b payload (attempt + 1) remaining
        ⟨inv + rest.invocations, DEFAULT_RETRY_DELAY :: rest.delays, rest.outcome⟩

/-- A full dispatch of one envelope: attempts numbered from 1, budget
`MAX_ATTEMPTS`. -/
def dispatch (b : HandlerBehavior) (payload : Envelope) : DispatchRun :=
  runWithRetry b payload 1 MAX_ATTEMPTS

/-- Whether an `Except` result is a success. -/
def exceptOk {ε α : Type} : Except ε α → Bool
  | .ok _ => true
  | .error _ => false

/-! ## Shared lemmas -/

/-- Tag folding never changes the status. -/
lemma foldl_add_tag_status (p : Post) (ts : List String) :
    (List.foldl Post._add_tag p ts).status = p.status := by
  induction ts generalizing p with
  | nil => rfl
  | cons t ts ih =>
    rw [List.foldl_cons, ih]
    by_cases hc : (pyStrip (pyLower t) ≠ "" ∧ pyStrip (pyLower t) ∉ p.tags) <;>
      simp [Post._add_tag, hc]

/-- Shape of every successful `remove_comment`. -/
lemma remove_comment_ok (a : PostAggregate) (cid uid : Nat) (a2 : PostAggregate)
    (h2 : a.remove_comment cid uid = .ok a2) :
    ∃ c c2, a._comments.find? (fun c => c.id == cid) = some c ∧
      c.soft_delete uid = .ok c2 ∧
      a2 = { a with _comments := replaceFirst (fun d => d.id == cid) (fun _ => c2) a._comments } := by
  unfold PostAggregate.remove_comment at h2
  cases hf : a._comments.find? (fun c => c.id == cid) with
  | none => rw [hf] at h2; exact absurd h2 (by simp)
  | some c0 =>
    rw [hf] at h2
    dsimp only at h2
    cases hd : c0.soft_delete uid with
    | error e => rw [hd] at h2; exact absurd h2 (by simp)
    | ok c2 =>
      rw [hd] at h2
      simp only [Except.ok.injEq] at h2
      exact ⟨c0, c2, rfl, hd, h2.symm⟩

lemma length_replaceFirst {α : Type} (p : α → Bool) (f : α → α) (l : List α) :
    (replaceFirst p f l).length = l.length := by
  induction l with
  | nil => rfl
  | cons c cs ih =>
    unfold replaceFirst
    split <;> simp [ih]

lemma mem_replaceFirst_of_find? {α : Type} (p : α → Bool) (f : α → α) (l : List α) (c : α)
    (h : l.find? p = some c) : f c ∈ replaceFirst p f l := by
  induction l with
  | nil => simp at h
  | cons a l ih =>
    by_cases hp : p a
    · rw [List.find?_cons_of_pos _ hp, Option.some.injEq] at h
      rw [← h]
      simp [replaceFirst, hp]
    · rw [List.find?_cons_of_neg _ hp] at h
      simp [replaceFirst, hp]
      right
      exact ih h

/-- In a list of comments with pairwise distinct ids, every element of the
list after replacing the first comment with id `cid` is either that
replacement or has a different id. -/
lemma mem_replaceFirst_id {cid : Nat} (f : Comment → Comment) (l : List Comment)
    (hp : l.Pairwise (fun c d => c.id ≠ d.id)) (c : Comment)
    (h : l.find? (fun d => d.id == cid) = some c) :
    ∀ d ∈ replaceFirst (fun d => d.id == cid) f l, d = f c ∨ d.id ≠ cid := by
  induction l with
  | nil => simp at h
  | cons a l ih =>
    rcases List.pairwise_cons.mp hp with ⟨ha, hl⟩
    cases hbeq : a.id == cid with
    | true =>
      have hpa : a.id = cid := by simpa using hbeq
      simp only [List.find?_cons, hbeq, Option.some.injEq] at h
      intro d hd
      rw [show replaceFirst (fun d => d.id == cid) f (a :: l) = f a :: l by
        simp [replaceFirst, hbeq]] at hd
      rcases List.mem_cons.mp hd with hda | hdl
      · left; rw [hda, h]
      · right
        intro hdc
        exact ha d hdl (by rw [hpa, ← hdc])
    | false =>
      have hpa : ¬ a.id = cid := by simpa using hbeq
      simp only [List.find?_cons, hbeq] at h
      intro d hd
      rw [show replaceFirst (fun d => d.id == cid) f (a :: l) =
          a :: replaceFirst (fun d => d.id == cid) f l by
        simp [replaceFirst, hbeq]] at hd
      rcases List.mem_cons.mp hd with hda | hdl
      · right; rw [hda]; exact hpa
      · exact ih hl h d hdl

lemma parseUUID_uuidToString (u : Nat) : parseUUID (uuidToString u) = some u := by
  simp [parseUUID, uuidToString, List.mem_replicate]

lemma uuidToString_ne_empty (u : Nat) : uuidToString u ≠ "" := by
  intro h
  have h2 : List.replicate (u + 1) 'u' = [] := congrArg String.data h
  simp [List.replicate_succ] at h2

lemma cleanField_id_uuid (k : String) (u : Nat)
    (hk : k = "post_id" ∨ k = "comment_id" ∨ k = "author_id" ∨ k = "event_id") :
    cleanField k (uuidToString u) = .uuid u := by
  simp [cleanField, hk, uuidToString_ne_empty, parseUUID_uuidToString]

lemma cleanField_str (k v : String)
    (hk : ¬(k = "post_id" ∨ k = "comment_id" ∨ k = "author_id" ∨ k = "event_id")) :
    cleanField k v = .str v := by
  simp [cleanField, hk]

/-- One dispatch execution, expressed through the handler's behaviour on
that attempt, once the envelope has a known type and a reconstructed event. -/
lemma dispatch_attempt_known (b : HandlerBehavior) (payload : Envelope) (m cls : String)
    (ev : DomainEvent) (n : Nat)
    (hmap : EVENT_HANDLER_MAP.lookup payload.event_type = some (m, cls))
    (hrec : reconstruct_event payload.event_type payload = some ev)
    (hh : b.hasHandle = true) :
    dispatch_attempt b payload n =
      match b.run ev n with
      | .ok _ => ⟨true, true, false, .ok (.ok payload.event_type cls)⟩
      | .error e => ⟨true, true, false, .error e⟩ := by
  unfold dispatch_attempt
  rw [hmap, hrec, hh]
  simp

/-! ## Concrete instances used by witnesses and counterexamples -/

/-- An archived aggregate whose author is user 10. -/
def cexArchivedAgg : PostAggregate :=
  PostAggregate.reconstitute 1 "T" ⟨"c"⟩ 10 .archived 0 none [] none []

/-- A draft aggregate with no comments. -/
def cexNoCommentAgg : PostAggregate :=
  PostAggregate.reconstitute 1 "T" ⟨"c"⟩ 10 .draft 0 none [] none []

/-- A draft aggregate holding one comment (id 5, author 8). -/
def cexOneCommentAgg : PostAggregate :=
  PostAggregate.reconstitute 1 "T" ⟨"c"⟩ 10 .draft 0 none [] none
    [⟨5, "hola", 8, 0, false⟩]

/-- A draft aggregate holding one comment (id 5, author 8), for the
comment-accessor claim. -/
def cexC9Before : PostAggregate :=
  PostAggregate.reconstitute 1 "T" ⟨"c"⟩ 10 .draft 0 none [] none
    [⟨5, "hola", 8, 0, false⟩]

/-- `cexC9Before` after user 8 removes comment 5. -/
def cexC9After : PostAggregate :=
  { cexC9Before with _comments := [⟨5, "[comentario eliminado]", 8, 0, true⟩] }

/-- A fresh draft aggregate with no tags. -/
def cexTagAgg : PostAggregate := PostAggregate.create "T" ⟨"c"⟩ 1 none 2 0

/-- A fresh draft aggregate whose content is 120 characters long. -/
def cexDraftLong : PostAggregate :=
  PostAggregate.create "T" ⟨String.mk (List.replicate 120 'x')⟩ 1 none 2 0

/-- The envelope of a `PostPublished` occurrence. -/
def cexPayloadPub : Envelope := encode 5 7 (.PostPublished (.uuid 3) (.str "my-post"))

/-- A handler that raises on every invocation. -/
def cexFailBehavior : HandlerBehavior := ⟨true, fun _ _ => .error "boom"⟩

/-- A handler that raises on attempts 1 and 2 and succeeds from attempt 3 on. -/
def cexFlakyBehavior : HandlerBehavior :=
  ⟨true, fun _ n => if 3 ≤ n then .ok () else .error "boom"⟩

/-- A `PostUpdated` envelope: its type is in `EVENT_HANDLER_MAP` but not in
the reconstruction map. -/
def cexPayloadUpd : Envelope :=
  ⟨"PostUpdated", "e", "0", [("post_id", "u"), ("new_title", "T")]⟩

/-- A handler that would succeed on any invocation. -/
def cexOkBehavior : HandlerBehavior := ⟨true, fun _ _ => .ok ()⟩

/-! ## Claim theorems -/

/-- C1: `publish()` succeeds exactly when the status is Draft and the trimmed
content length is at least 100; it fails with `AlreadyPublished` when
Published, with the archived kind when Archived, and with
`ContentTooShort{current, min=100}` when the content invariant is unmet; on
success the status becomes Published, `published_at` is set, and exactly one
`PostPublished{post_id, slug}` event is appended to the pending buffer. -/
theorem c1_publish_spec (a : PostAggregate) (now : Nat) :
    (a.post.status = .published → a.publish now = .error .PostAlreadyPublished) ∧
    (a.post.status = .archived → a.publish now = .error (.PostArchived "publicar")) ∧
    (a.post.status = .draft → pyLen (pyStrip a.post.content.value) < Content.MIN_LENGTH_TO_PUBLISH →
      a.publish now = .error (.InvalidPostContent (pyLen a.post.content.value) Content.MIN_LENGTH_TO_PUBLISH)) ∧
    (a.post.status = .draft → Content.MIN_LENGTH_TO_PUBLISH ≤ pyLen (pyStrip a.post.content.value) →
      a.publish now = .ok
        { a with
          post := { a.post with status := .published, updated_at := now, published_at := some now },
          _domain_events := a._domain_events ++ [.PostPublished (.uuid a.id) (.str a.post.slug)] }) ∧
    ((∃ a2, a.publish now = .ok a2) ↔
      (a.post.status = .draft ∧ Content.MIN_LENGTH_TO_PUBLISH ≤ pyLen (pyStrip a.post.content.value))) := by
  have hpub : a.post.status = .published → a.publish now = .error .PostAlreadyPublished := by
    intro h
    simp [PostAggregate.publish, Post.is_published, h]
  have harch : a.post.status = .archived → a.publish now = .error (.PostArchived "publicar") := by
    intro h
    simp [PostAggregate.publish, Post.is_published, Post.is_archived, h]
  have hshort : a.post.status = .draft → pyLen (pyStrip a.post.content.value) < Content.MIN_LENGTH_TO_PUBLISH →
      a.publish now = .error (.InvalidPostContent (pyLen a.post.content.value) Content.MIN_LENGTH_TO_PUBLISH) := by
    intro h h2
    simp [PostAggregate.publish, Post.is_published, Post.is_archived, Content.is_publishable, h,
      Nat.not_le.mpr h2]
  have hok : a.post.status = .draft → Content.MIN_LENGTH_TO_PUBLISH ≤ pyLen (pyStrip a.post.content.value) →
      a.publish now = .ok
        { a with
          post := { a.post with status := .published, updated_at := now, published_at := some now },
          _domain_events := a._domain_events ++ [.PostPublished (.uuid a.id) (.str a.post.slug)] } := by
    intro h h2
    simp [PostAggregate.publish, Post.is_published, Post.is_archived, Content.is_publishable, h, h2,
      PostAggregate._record_event, Post._set_status, Post._set_published_at]
  refine ⟨hpub, harch, hshort, hok, ?_, ?_⟩
  · rintro ⟨a2, ha⟩
    cases hst : a.post.status with
    | draft =>
      refine ⟨rfl, ?_⟩
      by_contra hlt
      rw [hshort hst (Nat.lt_of_not_le hlt)] at ha
      exact absurd ha (by simp)
    | published => rw [hpub hst] at ha; exact absurd ha (by simp)
    | archived => rw [harch hst] at ha; exact absurd ha (by simp)
  · rintro ⟨hst, hlen⟩
    exact ⟨_, hok hst hlen⟩

set_option maxRecDepth 4000 in
/-- C1 witness: a fresh draft aggregate with 120 characters of content
publishes successfully. -/
theorem c1_publish_spec_witness : ∃ a2, cexDraftLong.publish 5 = .ok a2 :=
  ((c1_publish_spec cexDraftLong 5).2.2.2.2).mpr ⟨rfl, by decide⟩

/-- C2 (amended): envelope encode/decode round-trips all payload fields for
`PostCreated`, `PostPublished`, `PostArchived` and `CommentAdded`; a
`PostUpdated` envelope — though its type is known to the handler map — is
absent from the reconstruction map and decodes to `none`, as does every
unknown `event_type`; a malformed identifier string in an identifier-bearing
field is passed through as the raw string instead of failing the decode. -/
theorem c2_roundtrip_amended (eid oat pid aid cid : Nat)
    (title slug ntitle s sl : String) (env : Envelope) :
    (reconstruct_event "PostCreated"
        (encode eid oat (.PostCreated (.uuid pid) (.uuid aid) (.str title))) =
      some (.PostCreated (.uuid pid) (.uuid aid) (.str title))) ∧
    (reconstruct_event "PostPublished"
        (encode eid oat (.PostPublished (.uuid pid) (.str slug))) =
      some (.PostPublished (.uuid pid) (.str slug))) ∧
    (reconstruct_event "PostArchived" (encode eid oat (.PostArchived (.uuid pid))) =
      some (.PostArchived (.uuid pid))) ∧
    (reconstruct_event "CommentAdded"
        (encode eid oat (.CommentAdded (.uuid pid) (.uuid cid) (.uuid aid))) =
      some (.CommentAdded (.uuid pid) (.uuid cid) (.uuid aid))) ∧
    (reconstruct_event "PostUpdated"
        (encode eid oat (.PostUpdated (.uuid pid) (.str ntitle))) = none) ∧
    (env.event_type ≠ "PostCreated" → env.event_type ≠ "PostPublished" →
      env.event_type ≠ "PostArchived" → env.event_type ≠ "CommentAdded" →
      reconstruct_event env.event_type env = none) ∧
    (parseUUID s = none → s ≠ "" →
      reconstruct_event "PostPublished"
          { event_type := "PostPublished", event_id := uuidToString eid,
            occurred_at := toString oat, data := [("post_id", s), ("slug", sl)] } =
        some (.PostPublished (.str s) (.str sl))) := by
  refine ⟨?_, ?_, ?_, ?_, ?_, ?_, ?_⟩
  · simp [reconstruct_event, encode, cleanData, payloadFields, pyValToWire, eventTypeName,
      cleanField_id_uuid, cleanField_str, getField]
  · simp [reconstruct_event, encode, cleanData, payloadFields, pyValToWire, eventTypeName,
      cleanField_id_uuid, cleanField_str, getField]
  · simp [reconstruct_event, encode, cleanData, payloadFields, pyValToWire, eventTypeName,
      cleanField_id_uuid, cleanField_str, getField]
  · simp [reconstruct_event, encode, cleanData, payloadFields, pyValToWire, eventTypeName,
      cleanField_id_uuid, cleanField_str, getField]
  · simp [reconstruct_event]
  · intro h1 h2 h3 h4
    simp [reconstruct_event, h1, h2, h3, h4]
  · intro hu hs
    simp [reconstruct_event, cleanData, cleanField, getField, hu, hs]

/-- C2 counterexample: a `PostUpdated` event — one of the five known event
types — does not survive the round-trip: decoding its envelope yields
`none` ("cannot reconstruct") because `_reconstruct_event`'s map omits
`PostUpdated`. -/
theorem c2_counterexample :
    reconstruct_event "PostUpdated"
      (encode 5 7 (.PostUpdated (.uuid 3) (.str "t"))) = none := rfl

/-- C2 witness: an unknown event type decodes to `none`, and a malformed
`post_id` string is passed through raw. -/
theorem c2_roundtrip_amended_witness :
    reconstruct_event "UnknownType" (⟨"UnknownType", "e", "0", []⟩ : Envelope) = none ∧
    reconstruct_event "PostPublished"
        (⟨"PostPublished", uuidToString 5, toString 7,
          [("post_id", "not-a-uuid"), ("slug", "my-post")]⟩ : Envelope) =
      some (.PostPublished (.str "not-a-uuid") (.str "my-post")) :=
  ⟨(c2_roundtrip_amended 0 0 0 0 0 "" "" "" "not-a-uuid" "my-post"
      ⟨"UnknownType", "e", "0", []⟩).2.2.2.2.2.1 (by decide) (by decide) (by decide) (by decide),
   (c2_roundtrip_amended 5 7 0 0 0 "" "" "" "not-a-uuid" "my-post"
      ⟨"UnknownType", "e", "0", []⟩).2.2.2.2.2.2 (by decide) (by decide)⟩

/-- C3: with a known event type, a reconstructed event and a handler
exposing `handle`, a handler that raises on every invocation is invoked
exactly 3 times in total with a fixed 30-unit delay between attempts, and
the exhausted retry budget ends in a surfaced terminal failure; a handler
that fails twice and succeeds on the 3rd attempt ends with `{status: ok}`. -/
theorem c3_retry_policy (bFail bFlaky : HandlerBehavior) (payload : Envelope)
    (m cls : String) (ev : DomainEvent)
    (hmap : EVENT_HANDLER_MAP.lookup payload.event_type = some (m, cls))
    (hrec : reconstruct_event payload.event_type payload = some ev)
    (hhF : bFail.hasHandle = true)
    (hhK : bFlaky.hasHandle = true)
    (hfail : ∀ e n, exceptOk (bFail.run e n) = false) :
    (dispatch bFail payload).invocations = 3 ∧
    (dispatch bFail payload).delays = [30, 30] ∧
    exceptOk (dispatch bFail payload).outcome = false ∧
    ((∀ e, exceptOk (bFlaky.run e 1) = false) → (∀ e, exceptOk (bFlaky.run e 2) = false) →
      bFlaky.run ev 3 = .ok () →
      dispatch bFlaky payload = ⟨3, [30, 30], .ok (.ok payload.event_type cls)⟩) := by
  have herr : ∀ n, ∃ e, bFail.run ev n = .error e := by
    intro n
    cases h : bFail.run ev n with
    | ok u => have := hfail ev n; rw [h] at this; simp [exceptOk] at this
    | error e => exact ⟨e, rfl⟩
  obtain ⟨e1, he1⟩ := herr 1
  obtain ⟨e2, he2⟩ := herr 2
  obtain ⟨e3, he3⟩ := herr 3
  have s3 : runWithRetry bFail payload 3 1 = ⟨1, [], .error e3⟩ := by
    unfold runWithRetry
    rw [dispatch_attempt_known bFail payload m cls ev 3 hmap hrec hhF, he3]
    rfl
  have s2 : runWithRetry bFail payload 2 2 = ⟨2, [30], .error e3⟩ := by
    unfold runWithRetry
    rw [dispatch_attempt_known bFail payload m cls ev 2 hmap hrec hhF, he2]
    simp [s3, DEFAULT_RETRY_DELAY]
  have s1 : dispatch bFail payload = ⟨3, [30, 30], .error e3⟩ := by
    unfold dispatch MAX_ATTEMPTS runWithRetry
    rw [dispatch_attempt_known bFail payload m cls ev 1 hmap hrec hhF, he1]
    simp [s2, DEFAULT_RETRY_DELAY]
  refine ⟨by rw [s1], by rw [s1], by rw [s1]; rfl, ?_⟩
  intro hk1 hk2 hk3
  have herr1 : ∃ e, bFlaky.run ev 1 = .error e := by
    cases h : bFlaky.run ev 1 with
    | ok u => have := hk1 ev; rw [h] at this; simp [exceptOk] at this
    | error e => exact ⟨e, rfl⟩
  have herr2 : ∃ e, bFlaky.run ev 2 = .error e := by
    cases h : bFlaky.run ev 2 with
    | ok u => have := hk2 ev; rw [h] at this; simp [exceptOk] at this
    | error e => exact ⟨e, rfl⟩
  obtain ⟨f1, hf1⟩ := herr1
  obtain ⟨f2, hf2⟩ := herr2
  have t3 : runWithRetry bFlaky payload 3 1 = ⟨1, [], .ok (.ok payload.event_type cls)⟩ := by
    unfold runWithRetry
    rw [dispatch_attempt_known bFlaky payload m cls ev 3 hmap hrec hhK, hk3]
    rfl
  have t2 : runWithRetry bFlaky payload 2 2 = ⟨2, [30], .ok (.ok payload.event_type cls)⟩ := by
    unfold runWithRetry
    rw [dispatch_attempt_known bFlaky payload m cls ev 2 hmap hrec hhK, hf2]
    simp [t3, DEFAULT_RETRY_DELAY]
  unfold dispatch MAX_ATTEMPTS runWithRetry
  rw [dispatch_attempt_known bFlaky payload m cls ev 1 hmap hrec hhK, hf1]
  simp [t2, DEFAULT_RETRY_DELAY]

/-- C3 witness: on a `PostPublished` envelope, an always-raising handler
runs 3 times with delays [30, 30] and fails terminally, while a handler
succeeding on its 3rd attempt ends with `{status: ok}`. -/
theorem c3_retry_policy_witness :
    (dispatch cexFailBehavior cexPayloadPub).invocations = 3 ∧
    (dispatch cexFailBehavior cexPayloadPub).delays = [30, 30] ∧
    exceptOk (dispatch cexFailBehavior cexPayloadPub).outcome = false ∧
    dispatch cexFlakyBehavior cexPayloadPub =
      ⟨3, [30, 30], .ok (.ok "PostPublished" "OnPostPublished")⟩ :=
  have T := c3_retry_policy cexFailBehavior cexFlakyBehavior cexPayloadPub
    "src.application.blog.event_handlers.post_event_handlers" "OnPostPublished"
    (.PostPublished (.uuid 3) (.str "my-post")) rfl rfl rfl rfl (fun _ _ => rfl)
  ⟨T.1, T.2.1, T.2.2.1, T.2.2.2 (fun _ => rfl) (fun _ => rfl) rfl⟩

/-- C4 (amended): `remove_comment` fails with `ValidationError` (whose
message says the comment was not found) when no comment matches the id —
the repository's not-found kinds are not used here — and otherwise
soft-deletes the matching comment, failing with `Unauthorized` when the
requesting user is not the comment's author. -/
theorem c4_remove_comment_spec (a : PostAggregate) (cid uid : Nat) :
    (a._comments.find? (fun c => c.id == cid) = none →
      a.remove_comment cid uid =
        .error (.Validation ("Comentario " ++ toString cid ++ " no encontrado en este post."))) ∧
    (∀ c, a._comments.find? (fun c => c.id == cid) = some c →
      (uid ≠ c.author_id →
        a.remove_comment cid uid = .error (.UnauthorizedPostAction "eliminar comentario")) ∧
      (uid = c.author_id →
        a.remove_comment cid uid =
          .ok { a with
                _comments := replaceFirst (fun d => d.id == cid)
                  (fun _ => { c with is_deleted := true, body := "[comentario eliminado]" })
                  a._comments })) := by
  constructor
  · intro hf
    unfold PostAggregate.remove_comment
    rw [hf]
  · intro c hf
    constructor
    · intro hu
      unfold PostAggregate.remove_comment
      rw [hf]
      simp [Comment.soft_delete, hu]
    · intro hu
      unfold PostAggregate.remove_comment
      rw [hf]
      simp [Comment.soft_delete, hu]

/-- C4 counterexample: with no matching comment, `remove_comment` raises
`ValidationError`, not a not-found error kind, contradicting "fails with
NotFound". -/
theorem c4_counterexample :
    cexNoCommentAgg.remove_comment 7 10 =
      .error (.Validation "Comentario 7 no encontrado en este post.") ∧
    errIsNotFound (cexNoCommentAgg.remove_comment 7 10) = false := ⟨rfl, rfl⟩

/-- C4 witness: the author of comment 5 soft-deletes it. -/
theorem c4_remove_comment_spec_witness :
    cexOneCommentAgg.remove_comment 5 8 =
      .ok { cexOneCommentAgg with
            _comments := replaceFirst (fun d => d.id == 5)
              (fun _ => { (⟨5, "hola", 8, 0, false⟩ : Comment) with
                          is_deleted := true, body := "[comentario eliminado]" })
              cexOneCommentAgg._comments } :=
  ((c4_remove_comment_spec cexOneCommentAgg 5 8).2 ⟨5, "hola", 8, 0, false⟩ rfl).2 rfl

/-- C5 (amended): once Archived, `publish` fails with the archived kind;
`update` always fails — with the archived kind when the caller is the
author, and with `Unauthorized` otherwise, since the authorization check
comes first; `add_comment` fails with `CommentNotAllowed`; and no operation
(archive, remove_comment, add_tags, set_category, pull_events included)
ever changes the status away from Archived. -/
theorem c5_archived_terminal (a : PostAggregate) (now uid cid ncid : Nat) (t : String)
    (c : Content) (body : String) (catId : Option Nat) (ts : List String)
    (h : a.post.status = .archived) :
    a.publish now = .error (.PostArchived "publicar") ∧
    (uid = a.post.author_id → a.update t c uid now = .error (.PostArchived "editar")) ∧
    (uid ≠ a.post.author_id → a.update t c uid now = .error (.UnauthorizedPostAction "editar")) ∧
    a.add_comment body uid ncid now = .error (.CommentNotAllowed "el post está archivado") ∧
    (uid = a.post.author_id → a.archive uid now = .error (.PostArchived "archivar nuevamente")) ∧
    (uid ≠ a.post.author_id → a.archive uid now = .error (.UnauthorizedPostAction "archivar")) ∧
    (∀ a2, a.remove_comment cid uid = .ok a2 → a2.post.status = .archived) ∧
    (a.add_tags ts).post.status = .archived ∧
    (a.set_category catId).post.status = .archived ∧
    ((a.pull_events).2).post.status = .archived := by
  refine ⟨?_, ?_, ?_, ?_, ?_, ?_, ?_, ?_, ?_, ?_⟩
  · simp [PostAggregate.publish, Post.is_published, Post.is_archived, h]
  · intro hu
    simp [PostAggregate.update, Post.is_archived, h, hu]
  · intro hu
    simp [PostAggregate.update, Post.is_archived, h, hu]
  · simp [PostAggregate.add_comment, Post.is_archived, h]
  · intro hu
    simp [PostAggregate.archive, Post.is_archived, h, hu]
  · intro hu
    simp [PostAggregate.archive, Post.is_archived, h, hu]
  · intro a2 h2
    obtain ⟨c0, c2, hf, hd, ha2⟩ := remove_comment_ok a cid uid a2 h2
    rw [ha2]
    exact h
  · simpa [PostAggregate.add_tags, foldl_add_tag_status] using h
  · simpa [PostAggregate.set_category, Post._set_category] using h
  · simpa [PostAggregate.pull_events] using h

/-- C5 counterexample: on an archived post, an `update` by a non-author
fails with `Unauthorized`, not with the archived-operation-rejected kind
the claim states for every update. -/
theorem c5_counterexample :
    cexArchivedAgg.update "N" ⟨"x"⟩ 99 5 = .error (.UnauthorizedPostAction "editar") ∧
    errIsPostArchived (cexArchivedAgg.update "N" ⟨"x"⟩ 99 5) = false := ⟨rfl, rfl⟩

/-- C5 witness: on a concrete archived post, publish, an author update and
add_comment all fail with the stated kinds. -/
theorem c5_archived_terminal_witness :
    cexArchivedAgg.publish 5 = .error (.PostArchived "publicar") ∧
    cexArchivedAgg.update "N" ⟨"x"⟩ 10 5 = .error (.PostArchived "editar") ∧
    cexArchivedAgg.add_comment "hola" 3 4 5 = .error (.CommentNotAllowed "el post está archivado") :=
  ⟨(c5_archived_terminal cexArchivedAgg 5 10 0 4 "N" ⟨"x"⟩ "hola" none [] rfl).1,
   (c5_archived_terminal cexArchivedAgg 5 10 0 4 "N" ⟨"x"⟩ "hola" none [] rfl).2.1 rfl,
   (c5_archived_terminal cexArchivedAgg 5 10 0 4 "N" ⟨"x"⟩ "hola" none [] rfl).2.2.2.1⟩

/-- C6: `pull_events` returns the buffered events in emission order and
clears the buffer: a second call returns an empty sequence and leaves the
aggregate unchanged, so calling it on an empty buffer is safe. -/
theorem c6_pull_events_drains (a : PostAggregate) :
    (a.pull_events).1 = a._domain_events ∧
    ((a.pull_events).2.pull_events).1 = [] ∧
    ((a.pull_events).2.pull_events).2 = (a.pull_events).2 :=
  ⟨rfl, rfl, rfl⟩

/-- C7 (amended): when the event type is known to the handler map but the
payload cannot be reconstructed, the handler object is built but its
reaction is never invoked; the degraded processing is logged and the task
completes with `{status: ok}` without retrying. -/
theorem c7_degraded_reconstruction (b : HandlerBehavior) (payload : Envelope)
    (m cls : String) (n : Nat)
    (hmap : EVENT_HANDLER_MAP.lookup payload.event_type = some (m, cls))
    (hrec : reconstruct_event payload.event_type payload = none) :
    dispatch_attempt b payload n = ⟨true, false, true, .ok (.ok payload.event_type cls)⟩ ∧
    dispatch b payload = ⟨0, [], .ok (.ok payload.event_type cls)⟩ := by
  have ha : ∀ k, dispatch_attempt b payload k =
      ⟨true, false, true, .ok (.ok payload.event_type cls)⟩ := by
    intro k
    unfold dispatch_attempt
    rw [hmap, hrec]
  refine ⟨ha n, ?_⟩
  unfold dispatch MAX_ATTEMPTS runWithRetry
  rw [ha 1]
  rfl

/-- C7 counterexample: on a `PostUpdated` envelope (known type, not
reconstructable) the handler — which would succeed if called — is invoked
zero times, yet the task reports ok: the "still invokes the resolved
handler" part of the claim is false. -/
theorem c7_counterexample :
    (dispatch cexOkBehavior cexPayloadUpd).invocations = 0 ∧
    (dispatch cexOkBehavior cexPayloadUpd).outcome = .ok (.ok "PostUpdated" "OnPostCreated") :=
  ⟨rfl, rfl⟩

/-- C7 witness: the degraded path on a concrete `PostUpdated` envelope. -/
theorem c7_degraded_reconstruction_witness :
    dispatch_attempt cexOkBehavior cexPayloadUpd 1 =
      ⟨true, false, true, .ok (.ok "PostUpdated" "OnPostCreated")⟩ ∧
    dispatch cexOkBehavior cexPayloadUpd = ⟨0, [], .ok (.ok "PostUpdated" "OnPostCreated")⟩ :=
  c7_degraded_reconstruction cexOkBehavior cexPayloadUpd
    "src.application.blog.event_handlers.post_event_handlers" "OnPostCreated" 1 rfl rfl

/-- C8: tag normalization is idempotent and case-insensitively
deduplicating: `add_tags ["A"]` then `add_tags ["a"]` on a fresh aggregate
yields exactly the tag list `["a"]`; entries that normalize to the empty
string and duplicates are silently ignored (the aggregate is unchanged, no
error); a new tag is appended in lowercase at the end, preserving insertion
order. -/
theorem c8_add_tags_spec (a : PostAggregate) (t : String) (title : String) (content : Content)
    (aid pid now : Nat) (catId : Option Nat) :
    (((PostAggregate.create title content aid catId pid now).add_tags ["A"]).add_tags
        ["a"]).post.tags = ["a"] ∧
    (pyStrip (pyLower t) = "" → a.add_tags [t] = a) ∧
    (pyStrip (pyLower t) ∈ a.post.tags → a.add_tags [t] = a) ∧
    (pyStrip (pyLower t) ≠ "" → pyStrip (pyLower t) ∉ a.post.tags →
      (a.add_tags [t]).post.tags = a.post.tags ++ [pyStrip (pyLower t)]) := by
  refine ⟨?_, ?_, ?_, ?_⟩
  · rfl
  · intro h
    simp [PostAggregate.add_tags, Post._add_tag, h]
  · intro h
    simp [PostAggregate.add_tags, Post._add_tag, h]
  · intro h1 h2
    simp [PostAggregate.add_tags, Post._add_tag, h1, h2]

/-- C8 witness: a whitespace-only tag is ignored and a fresh tag `"B"` is
appended as `"b"`. -/
theorem c8_add_tags_spec_witness :
    cexTagAgg.add_tags [" "] = cexTagAgg ∧
    (cexTagAgg.add_tags ["B"]).post.tags = cexTagAgg.post.tags ++ ["b"] :=
  ⟨(c8_add_tags_spec cexTagAgg " " "T" ⟨"c"⟩ 1 2 0 none).2.1 rfl,
   (c8_add_tags_spec cexTagAgg "B" "T" ⟨"c"⟩ 1 2 0 none).2.2.2 (by decide) (by decide)⟩

/-- C9: the `comments` accessor returns exactly the comments whose
soft-delete flag is unset, while `all_comments` returns every comment;
hence after a successful `remove_comment` (in an aggregate whose comment
ids are pairwise distinct) the comment disappears from `comments` yet stays
in `all_comments`, which keeps its length. -/
theorem c9_comments_accessor (a : PostAggregate) (cid uid : Nat) (a2 : PostAggregate) :
    (∀ c, c ∈ a.comments ↔ (c ∈ a.all_comments ∧ c.is_deleted = false)) ∧
    (a._comments.Pairwise (fun c d => c.id ≠ d.id) →
      a.remove_comment cid uid = .ok a2 →
      (∀ c ∈ a2.comments, c.id ≠ cid) ∧
      (∃ c ∈ a2.all_comments, c.id = cid ∧ c.is_deleted = true ∧ c ∉ a2.comments) ∧
      a2.all_comments.length = a.all_comments.length) := by
  constructor
  · intro c
    simp [PostAggregate.comments, PostAggregate.all_comments, List.mem_filter]
  · intro hp h2
    obtain ⟨c0, c2, hf, hd, ha2⟩ := remove_comment_ok a cid uid a2 h2
    have hsd : c2 = { c0 with is_deleted := true, body := "[comentario eliminado]" } := by
      unfold Comment.soft_delete at hd
      by_cases hu : uid ≠ c0.author_id
      · rw [if_pos hu] at hd; exact absurd hd (by simp)
      · rw [if_neg hu] at hd
        simp only [Except.ok.injEq] at hd
        exact hd.symm
    have hc0id : c0.id = cid := by
      have := List.find?_some hf
      simpa using this
    have hmem := mem_replaceFirst_id (fun _ => c2) a._comments hp c0 hf
    refine ⟨?_, ?_, ?_⟩
    · intro c hc
      rw [ha2] at hc
      simp only [PostAggregate.comments, List.mem_filter] at hc
      rcases hmem c hc.1 with hcc | hcid
      · exfalso
        have : c.is_deleted = true := by rw [hcc, hsd]
        rw [this] at hc
        simp at hc
      · exact hcid
    · refine ⟨c2, ?_, ?_, ?_, ?_⟩
      · rw [ha2]
        exact mem_replaceFirst_of_find? _ _ _ _ hf
      · rw [hsd]; simpa using hc0id
      · rw [hsd]
      · rw [ha2]
        simp only [PostAggregate.comments, List.mem_filter]
        rintro ⟨-, hdel⟩
        rw [hsd] at hdel
        simp at hdel
    · rw [ha2]
      simp [PostAggregate.all_comments, length_replaceFirst]

/-- C9 witness: after user 8 removes comment 5, the comment is gone from
`comments` but still present (tombstoned) in `all_comments`. -/
theorem c9_comments_accessor_witness :
    (∀ c ∈ cexC9After.comments, c.id ≠ 5) ∧
    (∃ c ∈ cexC9After.all_comments, c.id = 5 ∧ c.is_deleted = true ∧ c ∉ cexC9After.comments) ∧
    cexC9After.all_comments.length = cexC9Before.all_comments.length :=
  (c9_comments_accessor cexC9Before 5 8 cexC9After).2 (by decide) rfl

/-- C10: `reconstitute` sets the rebuilt post's `updated_at` to the supplied
`created_at` (no persisted update timestamp is accepted or restored),
recomputes the slug from the supplied title, and starts with an empty
pending-events buffer. -/
theorem c10_reconstitute_spec (post_id : Nat) (title : String) (content : Content)
    (author_id : Nat) (status : PostStatus) (created_at : Nat) (published_at : Option Nat)
    (tags : List String) (category_id : Option Nat) (comments : List Comment) :
    (PostAggregate.reconstitute post_id title content author_id status created_at
        published_at tags category_id comments).post.updated_at = created_at ∧
    (PostAggregate.reconstitute post_id title content author_id status created_at
        published_at tags category_id comments).post.slug = toSlug title ∧
    (PostAggregate.reconstitute post_id title content author_id status created_at
        published_at tags category_id comments)._domain_events = [] :=
  ⟨rfl, rfl, rfl⟩
